import Mathlib

/-!
Shallow embedding of the PdfVault backend (`src/backend/server.js`): a small
Express service with three routes — `POST /upload` (multer single-file upload
with a PDF MIME filter), `GET /pdfs` (directory listing filtered to `.pdf`
names), and a static mount `GET /pdfs/<name>` — plus a CORS middleware applied
to every request and a startup bootstrap that creates the upload directory.

File contents are lists of bytes; the storage directory is a flat association
of filenames to contents.  The nondeterministic inputs of a request (how the
multipart body parsed, the current `Date.now()` value, whether `readdir`
succeeds) are made explicit parameters, so every handler is a total function.
-/

namespace PdfVault

/-- Raw file content, as a list of bytes. -/
abbrev Bytes := List Nat

/-- The storage directory (`UPLOAD_DIR` in `server.js`): a flat association of
filenames to file contents.  Filenames are unique; writing an existing name
overwrites it (see `writeFile`). -/
abbrev Dir := List (String × Bytes)

/-- One file part of a multipart request, as multer hands it to the storage
engine and the file filter: `file.originalname`, `file.mimetype` (the
client-declared MIME type) and the raw bytes. -/
structure FilePart where
  originalname : String
  mimetype : String
  bytes : Bytes
deriving DecidableEq, Repr

/-- How the multipart body of a `POST /upload` request parsed, before the file
filter runs.  `parseFailure multerLevel msg` is a transport/parsing-layer
error (`multerLevel = true` when the error is a `multer.MulterError`, the
library-specific marker; `false` for a generic `Error` such as a busboy parse
error or a disk-write failure).  `parsed none` is a well-formed body with no
file part; `parsed (some f)` carries the single file part. -/
inductive ParseResult where
  | parseFailure (multerLevel : Bool) (msg : String)
  | parsed (file : Option FilePart)
deriving DecidableEq

/-- The error value the `upload` middleware passes to its callback:
either a `multer.MulterError` or a generic `Error`, each with a `.message`. -/
inductive MulterErr where
  | multerError (msg : String)
  | genericError (msg : String)
deriving DecidableEq

/-- The `fileFilter` given to `multer({...})` in `server.js`: reject with
`new Error("Only PDF files are allowed!")` when the declared MIME type is not
`application/pdf`, accept otherwise. -/
def fileFilter (file : FilePart) : Except String Unit :=
  if file.mimetype ≠ "application/pdf" then
    Except.error "Only PDF files are allowed!"
  else
    Except.ok ()

/-- The destination filename synthesized by the `multer.diskStorage` `filename`
callback: `Date.now() + '-' + file.originalname` (JavaScript number-to-string
coercion followed by string concatenation). -/
def storageFilename (now : Nat) (file : FilePart) : String :=
  toString now ++ "-" ++ file.originalname

/-- Writing a file into the storage directory, as `fs.createWriteStream` on the
destination path does: the bytes are stored under `name`, and a file already
present under the same name is overwritten (last write wins). -/
def writeFile (dir : Dir) (name : String) (bytes : Bytes) : Dir :=
  (name, bytes) :: dir.filter (fun e => e.1 != name)

/-- Running the `upload` middleware (multer, `.single('pdfFile')`) on a request:
returns the storage directory after the middleware, the error (if any) passed
to the callback, and `req.file.filename` when a file was saved.  A parse
failure or a file-filter rejection writes nothing; an accepted file part is
written under `storageFilename` before the callback runs. -/
def runUpload (now : Nat) (dir : Dir) (pr : ParseResult) :
    Dir × Option MulterErr × Option String :=
  match pr with
  | .parseFailure true msg => (dir, some (.multerError msg), none)
  | .parseFailure false msg => (dir, some (.genericError msg), none)
  | .parsed none => (dir, none, none)
  | .parsed (some file) =>
    match fileFilter file with
    | .error msg => (dir, some (.genericError msg), none)
    | .ok _ =>
      (writeFile dir (storageFilename now file) file.bytes, none,
        some (storageFilename now file))

/-- A response body.  `uploadOk m f u` is the JSON object
`{success: true, message: m, filename: f, url: u}`; `failure m` is
`{success: false, message: m}`; `pdfList l` is `{success: true, pdfs: l}`
with each element a `{name, url}` object rendered as a (name, url) pair;
`html` and `raw` are the non-JSON bodies (root banner, static file bytes);
`notFound` is the default 404 body. -/
inductive Body where
  | html (s : String)
  | uploadOk (message filename url : String)
  | failure (message : String)
  | pdfList (pdfs : List (String × String))
  | raw (bytes : Bytes)
  | notFound
deriving DecidableEq

/-- An HTTP response before the middleware headers are attached. -/
structure Response where
  status : Nat
  body : Body
deriving DecidableEq

/-- The `success` field of a JSON body, when the body is JSON carrying one. -/
def bodySuccess : Body → Option Bool
  | .uploadOk _ _ _ => some true
  | .failure _ => some false
  | .pdfList _ => some true
  | _ => none

/-- The `POST /upload` handler of `server.js`: run the `upload` middleware and,
in the callback, answer 500 for a `multer.MulterError`, 400 for any other
error, 400 `"No file selected for upload."` when no file part arrived, and
otherwise 200 with message, generated filename and public URL. -/
def postUpload (port : String) (now : Nat) (dir : Dir) (pr : ParseResult) :
    Dir × Response :=
  let r := runUpload now dir pr
  match r.2.1 with
  | some (.multerError msg) =>
    (r.1, ⟨500, .failure ("Multer error: " ++ msg)⟩)
  | some (.genericError msg) =>
    (r.1, ⟨400, .failure msg⟩)
  | none =>
    match r.2.2 with
    | none => (r.1, ⟨400, .failure "No file selected for upload."⟩)
    | some fname =>
      (r.1, ⟨200, .uploadOk "PDF uploaded successfully!" fname
        ("http://localhost:" ++ port ++ "/pdfs/" ++ fname)⟩)

/-- How `fs.readdir(UPLOAD_DIR, ...)` resolved for a given `GET /pdfs`
request: an error, or the list of directory entry names. -/
inductive ReaddirResult where
  | readdirError (msg : String)
  | entries (files : List String)
deriving DecidableEq

/-- JavaScript `s.endsWith(t)`, modelled on the strings' character lists:
true exactly when the characters of `t` are a suffix of those of `s`. -/
def strEndsWith (s t : String) : Bool :=
  t.data.reverse.isPrefixOf s.data.reverse

/-- The `GET /pdfs` handler of `server.js`: on a `readdir` error, 500 with
`"Failed to retrieve files."`; otherwise keep the entries ending in `.pdf` and
map each to a (name, url) pair. -/
def getPdfs (port : String) (rd : ReaddirResult) : Response :=
  match rd with
  | .readdirError _ => ⟨500, .failure "Failed to retrieve files."⟩
  | .entries files =>
    ⟨200, .pdfList ((files.filter (fun f => strEndsWith f ".pdf")).map
      (fun f => (f, "http://localhost:" ++ port ++ "/pdfs/" ++ f)))⟩

/-- Resolving a name against the storage directory, as the static mount does. -/
def staticLookup : Dir → String → Option Bytes
  | [], _ => none
  | (n, b) :: rest, name => if n = name then some b else staticLookup rest name

/-- The static mount `app.use('/pdfs', express.static(UPLOAD_DIR))`: stream the
bytes of the named file, or 404 when no such file exists. -/
def staticServe (dir : Dir) (name : String) : Response :=
  match staticLookup dir name with
  | some bytes => ⟨200, .raw bytes⟩
  | none => ⟨404, .notFound⟩

/-- The headers set by the CORS middleware on every request. -/
def corsHeaders : List (String × String) :=
  [("Access-Control-Allow-Origin", "*"),
   ("Access-Control-Allow-Methods", "GET, POST"),
   ("Access-Control-Allow-Headers", "Content-Type")]

/-- The `GET /` banner body of `server.js`. -/
def rootBanner : String :=
  "<h1>Welcome to the PDF Vault Backend!</h1><p>The backend is running successfully. To use the vault, open your <code>index.html</code> file in the browser or access the API endpoints:</p><ul><li>POST /upload (for file uploads)</li><li>GET /pdfs (for the list of files)</li></ul>"

/-- A route together with its request-specific nondeterministic input. -/
inductive RouteReq where
  | root
  | upload (pr : ParseResult)
  | pdfsList
  | pdfsFile (name : String)
  | other
deriving DecidableEq

/-- An incoming HTTP request: the `Host` header (never read by any handler)
and the dispatched route. -/
structure Req where
  host : String
  route : RouteReq
deriving DecidableEq

/-- Server-side state a request can observe: the storage directory, whether
`readdir` on it currently succeeds, and the current `Date.now()` value. -/
structure World where
  dir : Dir
  dirReadable : Bool
  now : Nat
deriving DecidableEq

/-- The `readdir` outcome a `GET /pdfs` request sees in a given world. -/
def readdirOf (w : World) : ReaddirResult :=
  if w.dirReadable then .entries (w.dir.map Prod.fst)
  else .readdirError "ENOENT"

/-- A full HTTP response, middleware headers included. -/
structure HttpResponse where
  status : Nat
  headers : List (String × String)
  body : Body
deriving DecidableEq

/-- The whole request pipeline: the CORS middleware sets the three headers and
calls `next()`, then the router dispatches to the matching handler (or to the
Express default 404 for an unmatched route).  Returns the new world and the
response. -/
def handleRequest (port : String) (w : World) (req : Req) : World × HttpResponse :=
  let p : World × Response :=
    match req.route with
    | .root => (w, ⟨200, .html rootBanner⟩)
    | .upload pr =>
      let q := postUpload port w.now w.dir pr
      (⟨q.1, w.dirReadable, w.now⟩, q.2)
    | .pdfsList => (w, getPdfs port (readdirOf w))
    | .pdfsFile name => (w, staticServe w.dir name)
    | .other => (w, ⟨404, .notFound⟩)
  (p.1, ⟨p.2.status, corsHeaders, p.2.body⟩)

/-- `const port = process.env.PORT || 3000`: the configured port, as the string
it interpolates to in URLs.  An unset variable and the empty string (the two
falsy cases) both fall back to the default 3000. -/
def portString (envPort : Option String) : String :=
  match envPort with
  | some p => if p = "" then "3000" else p
  | none => "3000"

/-- The retrieval-URL construction both handlers use:
`http://localhost:<port>/pdfs/<filename>`. -/
def retrievalUrl (port : String) (filename : String) : String :=
  "http://localhost:" ++ port ++ "/pdfs/" ++ filename

/-- Outcome of process startup.  `serving flags` records, for each
`fs.mkdirSync` call made during bootstrap, whether it was recursive;
`crashed` is an uncaught exception at module top level (the process never
reaches `app.listen`). -/
inductive StartupResult where
  | serving (mkdirRecursiveFlags : List Bool)
  | crashed
deriving DecidableEq

/-- The startup bootstrap of `server.js`:
`if (!fs.existsSync(UPLOAD_DIR)) fs.mkdirSync(UPLOAD_DIR)`.  When the
directory exists, no `mkdirSync` call is made; when absent, one non-recursive
`mkdirSync` call is made, and if it throws, startup crashes before any request
is served. -/
def startup (dirExists : Bool) (mkdirSucceeds : Bool) : StartupResult :=
  if dirExists then .serving []
  else if mkdirSucceeds then .serving [false]
  else .crashed

/-! ## Computation lemmas for the upload handler -/

/-- A library-level (`MulterError`) failure answers 500. -/
theorem postUpload_multer (port : String) (now : Nat) (dir : Dir) (msg : String) :
    postUpload port now dir (.parseFailure true msg) =
      (dir, ⟨500, .failure ("Multer error: " ++ msg)⟩) := rfl

/-- A generic parsing-layer failure answers 400. -/
theorem postUpload_generic (port : String) (now : Nat) (dir : Dir) (msg : String) :
    postUpload port now dir (.parseFailure false msg) =
      (dir, ⟨400, .failure msg⟩) := rfl

/-- A body with no file part answers 400. -/
theorem postUpload_noFile (port : String) (now : Nat) (dir : Dir) :
    postUpload port now dir (.parsed none) =
      (dir, ⟨400, .failure "No file selected for upload."⟩) := rfl

/-- A file part whose declared MIME type is not `application/pdf` is rejected
by the file filter: 400, nothing written. -/
theorem postUpload_reject (port : String) (now : Nat) (dir : Dir) (f : FilePart)
    (h : f.mimetype ≠ "application/pdf") :
    postUpload port now dir (.parsed (some f)) =
      (dir, ⟨400, .failure "Only PDF files are allowed!"⟩) := by
  simp only [postUpload, runUpload, fileFilter, if_pos h]

/-- An accepted file part is written under the generated filename and answered
with 200 and the public URL. -/
theorem postUpload_accept (port : String) (now : Nat) (dir : Dir) (f : FilePart)
    (h : f.mimetype = "application/pdf") :
    postUpload port now dir (.parsed (some f)) =
      (writeFile dir (storageFilename now f) f.bytes,
        ⟨200, .uploadOk "PDF uploaded successfully!" (storageFilename now f)
          ("http://localhost:" ++ port ++ "/pdfs/" ++ storageFilename now f)⟩) := by
  have hc : ¬ (f.mimetype ≠ "application/pdf") := fun hne => hne h
  simp only [postUpload, runUpload, fileFilter, if_neg hc]

/-! ## Claim theorems -/

/-- C1: every failing `POST /upload` is answered with a JSON
`{success:false, message}` body — 400 for validation failures (no file part,
MIME type not `application/pdf`, generic parse error) and 500 for
library-level (`MulterError`) failures — and, `postUpload` being a total
function covering every parse outcome, no failure escapes as an unhandled
fault or non-JSON page. -/
theorem upload_failure_contract (port : String) (now : Nat) (dir : Dir)
    (pr : ParseResult) :
    ((postUpload port now dir pr).2.status = 200 ∨
      (postUpload port now dir pr).2.status = 400 ∨
      (postUpload port now dir pr).2.status = 500) ∧
    ((postUpload port now dir pr).2.status ≠ 200 →
      ∃ m, (postUpload port now dir pr).2.body = .failure m ∧
        bodySuccess (postUpload port now dir pr).2.body = some false) ∧
    (∀ m, pr = .parseFailure true m →
      (postUpload port now dir pr).2 = ⟨500, .failure ("Multer error: " ++ m)⟩) ∧
    (∀ m, pr = .parseFailure false m →
      (postUpload port now dir pr).2 = ⟨400, .failure m⟩) ∧
    (pr = .parsed none →
      (postUpload port now dir pr).2 =
        ⟨400, .failure "No file selected for upload."⟩) ∧
    (∀ f, pr = .parsed (some f) → f.mimetype ≠ "application/pdf" →
      (postUpload port now dir pr).2 =
        ⟨400, .failure "Only PDF files are allowed!"⟩) := by
  rcases pr with ⟨ml, msg⟩ | (_ | f)
  · cases ml
    · simp [postUpload_generic, bodySuccess]
    · simp [postUpload_multer, bodySuccess]
  · simp [postUpload_noFile, bodySuccess]
  · by_cases hm : f.mimetype = "application/pdf"
    · simp [postUpload_accept port now dir f hm, bodySuccess, hm]
    · simp [postUpload_reject port now dir f hm, bodySuccess, hm]

/-- C1 witness: a concrete generic parse failure is answered 400 with the
error's message. -/
theorem upload_failure_contract_witness :
    (postUpload "3000" 7 [] (.parseFailure false "Unexpected end of form")).2 =
      ⟨400, .failure "Unexpected end of form"⟩ :=
  (upload_failure_contract "3000" 7 [] (.parseFailure false "Unexpected end of form")).2.2.2.1
    "Unexpected end of form" rfl

/-- C2: a file part with a declared MIME type other than `application/pdf` is
rejected before any write: the response carries `success:false` and the
explanatory filter message, and the storage directory is unchanged. -/
theorem upload_rejects_non_pdf (port : String) (now : Nat) (dir : Dir)
    (f : FilePart) (h : f.mimetype ≠ "application/pdf") :
    postUpload port now dir (.parsed (some f)) =
      (dir, ⟨400, .failure "Only PDF files are allowed!"⟩) ∧
    bodySuccess (postUpload port now dir (.parsed (some f))).2.body =
      some false := by
  have he := postUpload_reject port now dir f h
  exact ⟨he, by rw [he]; rfl⟩

/-- C2 witness: a `text/plain` upload into an empty directory is rejected and
the directory stays empty. -/
theorem upload_rejects_non_pdf_witness :
    postUpload "3000" 5 [] (.parsed (some ⟨"a.txt", "text/plain", [1]⟩)) =
      ([], ⟨400, .failure "Only PDF files are allowed!"⟩) :=
  (upload_rejects_non_pdf "3000" 5 [] ⟨"a.txt", "text/plain", [1]⟩
    (by decide)).1

/-- C3: a request with no file part is answered 400 with `success:false` and
the message `"No file selected for upload."`, and no file is written (the
directory is returned unchanged). -/
theorem upload_no_file_selected (port : String) (now : Nat) (dir : Dir) :
    postUpload port now dir (.parsed none) =
      (dir, ⟨400, .failure "No file selected for upload."⟩) ∧
    bodySuccess (postUpload port now dir (.parsed none)).2.body = some false :=
  ⟨rfl, rfl⟩

/-- C4: an accepted upload stores the file under
`<Date.now()>-<originalname>` and answers 200 with `success:true`, a message,
that filename, and the retrieval URL `http://localhost:<port>/pdfs/<filename>`. -/
theorem upload_success_response (port : String) (now : Nat) (dir : Dir)
    (f : FilePart) (h : f.mimetype = "application/pdf") :
    (postUpload port now dir (.parsed (some f))).2 =
      ⟨200, .uploadOk "PDF uploaded successfully!"
        (toString now ++ "-" ++ f.originalname)
        (retrievalUrl port (toString now ++ "-" ++ f.originalname))⟩ ∧
    storageFilename now f = toString now ++ "-" ++ f.originalname ∧
    bodySuccess (postUpload port now dir (.parsed (some f))).2.body =
      some true := by
  have he := postUpload_accept port now dir f h
  refine ⟨?_, rfl, ?_⟩
  · rw [he]; rfl
  · rw [he]; rfl

/-- C4 witness: uploading `doc.pdf` at time 42 stores and reports
`42-doc.pdf` with its localhost URL. -/
theorem upload_success_response_witness :
    (postUpload "3000" 42 [] (.parsed (some ⟨"doc.pdf", "application/pdf", [9]⟩))).2 =
      ⟨200, .uploadOk "PDF uploaded successfully!" "42-doc.pdf"
        "http://localhost:3000/pdfs/42-doc.pdf"⟩ := by
  have h := (upload_success_response "3000" 42 []
    ⟨"doc.pdf", "application/pdf", [9]⟩ rfl).1
  exact h.trans (by decide)

/-- A name present in the storage directory resolves under the static mount. -/
theorem staticLookup_isSome_of_mem {dir : Dir} {name : String} {bytes : Bytes}
    (h : (name, bytes) ∈ dir) : (staticLookup dir name).isSome = true := by
  induction dir with
  | nil => cases h
  | cons e rest ih =>
    obtain ⟨n, b⟩ := e
    rcases List.mem_cons.mp h with he | he
    · cases he
      simp [staticLookup]
    · by_cases hn : n = name
      · simp [staticLookup, hn]
      · simpa [staticLookup, hn] using ih he

/-- C5: `GET /pdfs` returns exactly the directory entries whose name ends in
`.pdf`, each as a (name, url) pair with the same retrieval-URL construction as
the upload handler; an entry whose name lacks the `.pdf` suffix is absent from
that list yet is still served by the static mount. -/
theorem pdfs_listing_contract (port : String) (dir : Dir) (name : String)
    (bytes : Bytes) (hmem : (name, bytes) ∈ dir)
    (hnot : strEndsWith name ".pdf" = false) :
    getPdfs port (.entries (dir.map Prod.fst)) =
      ⟨200, .pdfList (((dir.map Prod.fst).filter
        (fun f => strEndsWith f ".pdf")).map (fun f => (f, retrievalUrl port f)))⟩ ∧
    (∀ e ∈ (dir.map Prod.fst).filter (fun f => strEndsWith f ".pdf"), e ≠ name) ∧
    (staticServe dir name).status = 200 := by
  refine ⟨rfl, ?_, ?_⟩
  · intro e he hEq
    have h2 := (List.mem_filter.mp he).2
    rw [hEq] at h2
    simp only [hnot] at h2
    cases h2
  · have hs := staticLookup_isSome_of_mem hmem
    rcases Option.isSome_iff_exists.mp hs with ⟨b, hb⟩
    simp [staticServe, hb]

/-- C5 witness: with entries `x.txt` and `9-a.pdf` stored, the listing shows
only `9-a.pdf`, while `x.txt` is still served statically. -/
theorem pdfs_listing_contract_witness :
    getPdfs "3000"
        (.entries ([("x.txt", [7]), ("9-a.pdf", [1])].map Prod.fst)) =
      ⟨200, .pdfList [("9-a.pdf", "http://localhost:3000/pdfs/9-a.pdf")]⟩ ∧
    (staticServe [("x.txt", [7]), ("9-a.pdf", [1])] "x.txt").status = 200 := by
  have h := pdfs_listing_contract "3000" [("x.txt", [7]), ("9-a.pdf", [1])]
    "x.txt" [7] (by decide) (by decide)
  exact ⟨h.1.trans (by decide), h.2.2⟩

/-- C6: when `readdir` fails, `GET /pdfs` answers 500 with the JSON body
`{success:false, message:"Failed to retrieve files."}`; `getPdfs` is a total
function, so the failure never crashes the process. -/
theorem pdfs_readdir_error (port msg : String) :
    getPdfs port (.readdirError msg) =
      ⟨500, .failure "Failed to retrieve files."⟩ ∧
    bodySuccess (getPdfs port (.readdirError msg)).body = some false :=
  ⟨rfl, rfl⟩

/-- C7: every response of the service — any route, success or failure —
carries the three CORS headers set by the middleware. -/
theorem cors_headers_every_response (port : String) (w : World) (req : Req) :
    (handleRequest port w req).2.headers = corsHeaders ∧
    ("Access-Control-Allow-Origin", "*") ∈
      (handleRequest port w req).2.headers ∧
    ("Access-Control-Allow-Methods", "GET, POST") ∈
      (handleRequest port w req).2.headers ∧
    ("Access-Control-Allow-Headers", "Content-Type") ∈
      (handleRequest port w req).2.headers := by
  have h : (handleRequest port w req).2.headers = corsHeaders := rfl
  refine ⟨h, ?_, ?_, ?_⟩ <;> rw [h] <;> decide

/-- C8: startup checks for the storage directory and, only when it is absent,
makes one non-recursive `mkdirSync` call; if that call fails the process
crashes before serving — it never continues into the serving state. -/
theorem startup_bootstrap :
    (∀ m, startup true m = .serving []) ∧
    startup false true = .serving [false] ∧
    startup false false = .crashed ∧
    (∀ flags, startup false false ≠ .serving flags) :=
  ⟨fun _ => rfl, rfl, rfl, fun _ h => StartupResult.noConfusion h⟩

/-- Writing preserves every stored entry under a different name. -/
theorem mem_writeFile_of_ne {dir : Dir} {n name : String} {b bytes : Bytes}
    (hm : (n, b) ∈ dir) (hne : n ≠ name) : (n, b) ∈ writeFile dir name bytes :=
  List.mem_cons_of_mem _
    (List.mem_filter.mpr ⟨hm, by simpa [bne_iff_ne] using hne⟩)

/-- Writing a fresh name grows the directory by exactly one entry. -/
theorem length_writeFile_fresh {dir : Dir} {name : String} {bytes : Bytes}
    (h : name ∉ dir.map Prod.fst) :
    (writeFile dir name bytes).length = dir.length + 1 := by
  have hf : dir.filter (fun e => e.1 != name) = dir :=
    List.filter_eq_self.mpr (fun e he => by
      simp only [bne_iff_ne, ne_eq, decide_eq_true_eq]
      intro hEq
      exact h (hEq ▸ List.mem_map_of_mem Prod.fst he))
  unfold writeFile
  rw [hf, List.length_cons]

/-- C9 counterexample: a second upload of `a.pdf` in the same millisecond as a
stored `100-a.pdf` succeeds (status 200) yet creates no new file — the
directory keeps length 1 and the previously stored entry's bytes are gone
(overwritten). -/
theorem upload_collision_counterexample :
    (postUpload "3000" 100 [("100-a.pdf", [1])]
      (.parsed (some ⟨"a.pdf", "application/pdf", [2]⟩))).2.status = 200 ∧
    (postUpload "3000" 100 [("100-a.pdf", [1])]
      (.parsed (some ⟨"a.pdf", "application/pdf", [2]⟩))).1 =
      [("100-a.pdf", [2])] ∧
    (postUpload "3000" 100 [("100-a.pdf", [1])]
      (.parsed (some ⟨"a.pdf", "application/pdf", [2]⟩))).1.length = 1 ∧
    ("100-a.pdf", ([1] : Bytes)) ∉ (postUpload "3000" 100 [("100-a.pdf", [1])]
      (.parsed (some ⟨"a.pdf", "application/pdf", [2]⟩))).1 := by
  decide

/-- C9 amended: no rejection path changes the storage directory; a successful
upload writes exactly the generated filename — creating exactly one new file
when that name is fresh, and otherwise overwriting the colliding file (last
write wins) — while every entry under a different name is preserved; and the
listing, static and root routes never change the directory. -/
theorem upload_frame_amended (port : String) (now : Nat) (dir : Dir)
    (pr : ParseResult) :
    ((postUpload port now dir pr).2.status ≠ 200 →
      (postUpload port now dir pr).1 = dir) ∧
    (∀ f, pr = .parsed (some f) → f.mimetype = "application/pdf" →
      (postUpload port now dir pr).1 =
        writeFile dir (storageFilename now f) f.bytes ∧
      (∀ n b, (n, b) ∈ dir → n ≠ storageFilename now f →
        (n, b) ∈ (postUpload port now dir pr).1) ∧
      (storageFilename now f ∉ dir.map Prod.fst →
        (postUpload port now dir pr).1.length = dir.length + 1)) ∧
    (∀ w host name, (handleRequest port w ⟨host, .pdfsList⟩).1 = w ∧
      (handleRequest port w ⟨host, .pdfsFile name⟩).1 = w ∧
      (handleRequest port w ⟨host, .root⟩).1 = w) := by
  refine ⟨?_, ?_, fun w host name => ⟨rfl, rfl, rfl⟩⟩
  · rcases pr with ⟨ml, msg⟩ | (_ | f)
    · cases ml
      · intro _; rw [postUpload_generic]
      · intro _; rw [postUpload_multer]
    · intro _; rw [postUpload_noFile]
    · by_cases hm : f.mimetype = "application/pdf"
      · intro hs
        exact absurd (by rw [postUpload_accept port now dir f hm]) hs
      · intro _; rw [postUpload_reject port now dir f hm]
  · intro f hpr hm
    subst hpr
    rw [postUpload_accept port now dir f hm]
    exact ⟨rfl, fun n b hmem hne => mem_writeFile_of_ne hmem hne,
      fun hfresh => length_writeFile_fresh hfresh⟩

/-- C9 amended, witness: a fresh upload adds exactly its entry in front of the
preserved old one, and a library-level failure leaves the directory as it
was. -/
theorem upload_frame_amended_witness :
    (postUpload "3000" 7 [("1-b.pdf", [3])]
      (.parsed (some ⟨"c.pdf", "application/pdf", [4]⟩))).1 =
      [("7-c.pdf", [4]), ("1-b.pdf", [3])] ∧
    (postUpload "3000" 7 [("1-b.pdf", [3])] (.parseFailure true "x")).1 =
      [("1-b.pdf", [3])] := by
  have h := upload_frame_amended "3000" 7 [("1-b.pdf", [3])]
    (.parsed (some ⟨"c.pdf", "application/pdf", [4]⟩))
  have h2 := upload_frame_amended "3000" 7 [("1-b.pdf", [3])]
    (.parseFailure true "x")
  exact ⟨((h.2.1 _ rfl rfl).1).trans (by decide), h2.1 (by decide)⟩

/-- C10: retrieval URLs are hard-coded to localhost with the configured port:
no handler reads the Host header (the full pipeline gives identical answers
for any two hosts), the upload success URL is literally
`http://localhost:<port>/pdfs/<filename>`, and every listing entry carries the
same literal construction. -/
theorem url_hardcoded_localhost (port : String) (w : World) (h1 h2 : String)
    (r : RouteReq) (now : Nat) (dir : Dir) (f : FilePart)
    (hf : f.mimetype = "application/pdf") :
    handleRequest port w ⟨h1, r⟩ = handleRequest port w ⟨h2, r⟩ ∧
    (postUpload port now dir (.parsed (some f))).2.body =
      .uploadOk "PDF uploaded successfully!" (storageFilename now f)
        ("http://localhost:" ++ port ++ "/pdfs/" ++ storageFilename now f) ∧
    (∀ files, getPdfs port (.entries files) =
      ⟨200, .pdfList ((files.filter (fun n => strEndsWith n ".pdf")).map
        (fun n => (n, "http://localhost:" ++ port ++ "/pdfs/" ++ n)))⟩) := by
  refine ⟨rfl, ?_, fun files => rfl⟩
  rw [postUpload_accept port now dir f hf]

/-- C10 witness: with the default port 3000, responses are Host-independent
and the URL for `doc2.pdf` uploaded at time 42 is
`http://localhost:3000/pdfs/42-doc2.pdf`. -/
theorem url_hardcoded_localhost_witness :
    handleRequest (portString none) ⟨[], true, 0⟩ ⟨"example.com", .pdfsList⟩ =
      handleRequest (portString none) ⟨[], true, 0⟩ ⟨"other.test", .pdfsList⟩ ∧
    (postUpload (portString none) 42 []
      (.parsed (some ⟨"doc2.pdf", "application/pdf", [9]⟩))).2.body =
      .uploadOk "PDF uploaded successfully!" "42-doc2.pdf"
        "http://localhost:3000/pdfs/42-doc2.pdf" := by
  have h := url_hardcoded_localhost (portString none) ⟨[], true, 0⟩
    "example.com" "other.test" .pdfsList 42 []
    ⟨"doc2.pdf", "application/pdf", [9]⟩ rfl
  exact ⟨h.1, h.2.1.trans (by decide)⟩

end PdfVault
